import Mathlib

/-!
# Verification of the redux-analysis store engine

A shallow embedding of the repository's store engine (`src/src/createStore.js`)
and middleware pipeline (`src/src/applyMiddleware.js`, `compose`).

JavaScript values that flow through the engine (actions, states) are embedded
as the inductive `JSValue`; reference identity of listener arrays (needed by
`ensureCanMutateNextListeners`, which compares `nextListeners ===
currentListeners`) is embedded by storing the arrays in a heap of array slots
and keeping array *ids* in the engine, so that `===` becomes id equality and
`slice()` becomes allocation of a fresh slot.  Listener callbacks and reducers
are embedded as scripts interpreted against the engine, so that callbacks can
re-enter the engine (`getState`, `subscribe`, `unsubscribe`, nested
`dispatch`) exactly as JavaScript closures can.  Re-entrant interpretation is
fuel-indexed; `Err.outOfFuel` never occurs at the fuel values used below.
-/

/-- A JavaScript value as seen by the engine: primitives, arrays, plain
objects (keyed records), functions (identified by an id, since the engine only
ever checks `typeof x === 'function'` and compares references), and class
instances (which are objects but not *plain* objects). -/
inductive JSValue where
  | undefined
  | null
  | str (s : String)
  | num (n : Int)
  | boolean (b : Bool)
  | arr (elems : List JSValue)
  | obj (fields : List (String × JSValue))
  | jsfn (id : Nat)
  | inst (className : String) (fields : List (String × JSValue))

/-- Property access `v[k]`: `undefined` on missing keys and non-objects. -/
def getField : JSValue → String → JSValue
  | .obj fields, k => (fields.lookup k).getD .undefined
  | .inst _ fields, k => (fields.lookup k).getD .undefined
  | _, _ => .undefined

/-- `typeof v === 'undefined'`. -/
def isUndefined : JSValue → Bool
  | .undefined => true
  | _ => false

/-- The `type` field of an action, when it is a string. -/
def typeStr (a : JSValue) : Option String :=
  match getField a "type" with
  | .str t => some t
  | _ => none

/-- Modelled from the spec: `isPlainObject` (the file
`src/utils/isPlainObject.js` is imported by `createStore.js` but is not among
the provided sources).  Per the spec's data model, an action "must belong to a
structurally simple, serializable value (a plain keyed record, not a function,
not a class instance, not null)"; arrays and primitives are likewise not
plain records. -/
def isPlainObject : JSValue → Bool
  | .obj _ => true
  | _ => false

/-- The validation dispatch performs on an action before touching the engine:
a plain object whose `type` property is not `undefined`. -/
def validAction (a : JSValue) : Bool :=
  isPlainObject a && !(isUndefined (getField a "type"))

/-- Errors thrown by the engine (each corresponds to one `throw new Error`
site in the sources), plus the fuel sentinel of the interpreter. -/
inductive Err where
  | notPlainObject            -- 'Actions must be plain objects. …'
  | undefinedType             -- 'Actions may not have an undefined "type" property. …'
  | reentrantDispatch         -- 'Reducers may not dispatch actions.'
  | getStateWhileDispatching  -- 'You may not call store.getState() while the reducer is executing. …'
  | subscribeWhileDispatching -- 'You may not call store.subscribe() while the reducer is executing. …'
  | unsubscribeWhileDispatching -- 'You may not unsubscribe from a store listener while the reducer is executing. …'
  | reducerRaised             -- an exception raised by the reducer itself
  | expectedEnhancerFunction  -- 'Expected the enhancer to be a function.'
  | expectedReducerFunction   -- 'Expected the reducer to be a function.'
  | dispatchWhileConstructing -- 'Dispatching while constructing your middleware is not allowed. …'
  | outOfFuel                 -- interpreter artefact, not a source error
  deriving DecidableEq

/-- Observable events recorded while interpreting a run: listener invocations,
successful `getState` reads made by listeners, reducer invocations, and
middleware handler entries. -/
inductive Ev where
  | fired (lid : Nat)
  | gotState (v : JSValue)
  | reduced (a : JSValue)
  | mwCall (tag : Nat) (a : JSValue)

/-- A scripted listener body: the store operations a listener callback may
perform when invoked during notification. -/
inductive LOp where
  | lGetState
  | lSubscribe (lid : Nat)
  | lUnsub (sid : Nat)
  | lDispatch (a : JSValue)

/-- A reducer.  `fn f` is a pure reducer (`f s a = none` embeds the reducer
raising an exception); `nestedOn t inner f` embeds the JavaScript reducer
`(s, act) => { if (act.type === t) { store.dispatch(inner); return s }
return f(s, act) }`, i.e. a reducer that re-enters `dispatch` for actions of
discriminant `t`. -/
inductive Reducer where
  | fn (f : JSValue → JSValue → Option JSValue)
  | nestedOn (t : String) (inner : JSValue) (f : JSValue → JSValue → Option JSValue)

/-- One subscription record: the listener (function id) captured by the
`unsubscribe` closure together with the closure's `isSubscribed` flag.
Subscription ids are positions in `Engine.subs`. -/
structure SubRec where
  lid : Nat
  isSubscribed : Bool

/-- The closure state of one `createStore` call.  `heap` holds the listener
arrays; `curId`/`nextId` are the references `currentListeners`/`nextListeners`
(reference equality in the source is id equality here). -/
@[ext] structure Engine where
  reducer : Reducer
  state : JSValue
  heap : List (List Nat)
  curId : Nat
  nextId : Nat
  isDispatching : Bool
  subs : List SubRec

/-- `Array.prototype.indexOf`: first index of `x`, `-1` when absent. -/
def jsIndexOf : List Nat → Nat → Int
  | [], _ => -1
  | a :: rest, x =>
    if a = x then 0
    else
      let r := jsIndexOf rest x
      if r < 0 then -1 else r + 1

/-- `Array.prototype.splice(i, 1)`: removes one element at `i`, counting from
the end when `i` is negative (so `splice(-1, 1)` removes the last element). -/
def jsSpliceOne (arrL : List Nat) (i : Int) : List Nat :=
  let len : Int := arrL.length
  let start : Nat :=
    if i < 0 then (if i + len < 0 then 0 else (i + len).toNat)
    else (if i > len then arrL.length else i.toNat)
  arrL.take start ++ arrL.drop (start + 1)

/-- `ensureCanMutateNextListeners` (createStore.js:61-65): when
`nextListeners === currentListeners`, replace `nextListeners` by a fresh copy
(`currentListeners.slice()`), i.e. allocate a new heap slot. -/
def ensureCanMutateNextListeners (e : Engine) : Engine :=
  if e.nextId = e.curId then
    { e with heap := e.heap ++ [e.heap.getD e.curId []], nextId := e.heap.length }
  else e

/-- `getState` (createStore.js:72-85). -/
def getStateOp (e : Engine) : Except Err JSValue :=
  if e.isDispatching then .error .getStateWhileDispatching
  else .ok e.state

/-- `subscribe` (createStore.js:110-130): guarded by the reentrancy flag,
copies on write, pushes the listener onto `nextListeners`, and returns (the id
of) the unsubscribe closure.  The listener argument is a function id, so the
source's `typeof listener !== 'function'` guard cannot fire here. -/
def subscribeOp (e : Engine) (lid : Nat) : Except Err (Engine × Nat) :=
  if e.isDispatching then .error .subscribeWhileDispatching
  else
    let e1 := ensureCanMutateNextListeners e
    let e2 := { e1 with
      heap := e1.heap.set e1.nextId ((e1.heap.getD e1.nextId []) ++ [lid]) }
    .ok ({ e2 with subs := e2.subs ++ [⟨lid, true⟩] }, e2.subs.length)

/-- The `unsubscribe` closure returned by `subscribe` (createStore.js:131-151):
a no-op once `isSubscribed` is cleared; otherwise guarded by the reentrancy
flag, then clears `isSubscribed`, copies on write, and splices out the first
occurrence of the captured listener. -/
def unsubscribeOp (e : Engine) (sid : Nat) : Except Err Engine :=
  match e.subs.get? sid with
  | none => .ok e
  | some r =>
    if !r.isSubscribed then .ok e
    else if e.isDispatching then .error .unsubscribeWhileDispatching
    else
      let e1 := { e with subs := e.subs.set sid { r with isSubscribed := false } }
      let e2 := ensureCanMutateNextListeners e1
      let arrL := e2.heap.getD e2.nextId []
      .ok { e2 with heap := e2.heap.set e2.nextId (jsSpliceOne arrL (jsIndexOf arrL (r.lid))) }

/-- The listener environment: the scripted body of each listener function id. -/
abbrev LEnv := Nat → List LOp

mutual

/-- `dispatch` (createStore.js:179-231): validate the action, reject nested
dispatch, run the reducer with the reentrancy flag set (clearing it again in
`finally` even when the reducer raises), then take the listener snapshot
(`const listeners = (currentListeners = nextListeners)`), invoke every
listener in it, and return the action.  Errors raised by the reducer or by a
listener propagate to the caller. -/
def dispatchF (env : LEnv) (fuel : Nat) (e : Engine) (a : JSValue) :
    Engine × List Ev × Except Err JSValue :=
  match fuel with
  | 0 => (e, [], .error .outOfFuel)
  | fuel + 1 =>
    if isPlainObject a then
      if isUndefined (getField a "type") then (e, [], .error .undefinedType)
      else if e.isDispatching then (e, [], .error .reentrantDispatch)
      else
        -- try { isDispatching = true; currentState = currentReducer(currentState, action) }
        -- finally { isDispatching = false }
        match runReducerF env fuel { e with isDispatching := true } a with
        | (e2, log1, .error err) => ({ e2 with isDispatching := false }, log1, .error err)
        | (e2, log1, .ok s) =>
          let e3 := { e2 with state := s, isDispatching := false }
          -- const listeners = (currentListeners = nextListeners)
          let e4 := { e3 with curId := e3.nextId }
          match notifyF env fuel e4 e4.nextId 0 with
          | (e5, log2, .error err) => (e5, log1 ++ log2, .error err)
          | (e5, log2, .ok _) => (e5, log1 ++ log2, .ok a)
    else (e, [], .error .notPlainObject)

/-- One invocation of `currentReducer(currentState, action)`, run with the
reentrancy flag already set by `dispatch`. -/
def runReducerF (env : LEnv) (fuel : Nat) (e : Engine) (a : JSValue) :
    Engine × List Ev × Except Err JSValue :=
  match fuel with
  | 0 => (e, [], .error .outOfFuel)
  | fuel + 1 =>
    match e.reducer with
    | .fn f =>
      (e, [.reduced a],
        match f e.state a with
        | some s => .ok s
        | none => .error .reducerRaised)
    | .nestedOn t inner f =>
      if typeStr a = some t then
        let s := e.state
        match dispatchF env fuel e inner with
        | (e1, log, .error err) => (e1, .reduced a :: log, .error err)
        | (e1, log, .ok _) => (e1, .reduced a :: log, .ok s)
      else
        (e, [.reduced a],
          match f e.state a with
          | some s => .ok s
          | none => .error .reducerRaised)

/-- The notification loop of `dispatch` (createStore.js:222-228):
`for (let i = 0; i < listeners.length; i++) { const listener = listeners[i];
listener() }`.  `arrId` is the array reference held by the loop's local
`listeners`; its contents are re-read from the heap on every iteration, as in
the source (the copy-on-write discipline is what keeps them stable). -/
def notifyF (env : LEnv) (fuel : Nat) (e : Engine) (arrId : Nat) (i : Nat) :
    Engine × List Ev × Except Err Unit :=
  match fuel with
  | 0 => (e, [], .error .outOfFuel)
  | fuel + 1 =>
    let arrL := e.heap.getD arrId []
    if i < arrL.length then
      let lid := arrL.getD i 0
      match runOpsF env fuel e (env lid) with
      | (e1, log1, .error err) => (e1, .fired lid :: log1, .error err)
      | (e1, log1, .ok _) =>
        match notifyF env fuel e1 arrId (i + 1) with
        | (e2, log2, r) => (e2, .fired lid :: (log1 ++ log2), r)
    else (e, [], .ok ())

/-- Runs the scripted body of a listener callback; any error it raises
propagates (the engine never catches listener errors). -/
def runOpsF (env : LEnv) (fuel : Nat) (e : Engine) (ops : List LOp) :
    Engine × List Ev × Except Err Unit :=
  match fuel with
  | 0 => (e, [], .error .outOfFuel)
  | fuel + 1 =>
    match ops with
    | [] => (e, [], .ok ())
    | op :: rest =>
      match op with
      | .lGetState =>
        match getStateOp e with
        | .error err => (e, [], .error err)
        | .ok v =>
          match runOpsF env fuel e rest with
          | (e1, log, r) => (e1, .gotState v :: log, r)
      | .lSubscribe lid =>
        match subscribeOp e lid with
        | .error err => (e, [], .error err)
        | .ok (e1, _) => runOpsF env fuel e1 rest
      | .lUnsub sid =>
        match unsubscribeOp e sid with
        | .error err => (e, [], .error err)
        | .ok e1 => runOpsF env fuel e1 rest
      | .lDispatch a =>
        match dispatchF env fuel e a with
        | (e1, log, .error err) => (e1, log, .error err)
        | (e1, log, .ok _) =>
          match runOpsF env fuel e1 rest with
          | (e2, log2, r) => (e2, log ++ log2, r)

end

/-- The fresh closure state of `createStore` before the initial dispatch
(createStore.js:52-56): `currentState = preloadedState`,
`currentListeners = []`, `nextListeners = currentListeners` (the same array),
`isDispatching = false`. -/
def startEngine (r : Reducer) (preloaded : JSValue) : Engine :=
  { reducer := r, state := preloaded, heap := [[]], curId := 0, nextId := 0,
    isDispatching := false, subs := [] }

/-- `ActionTypes.INIT` (utils/actionTypes.js): the reserved string
`'@@redux/INIT'` followed by a random suffix fixed at module load; the suffix
is abstracted as a parameter. -/
def initActionType (suffix : String) : String :=
  "@@redux/INIT" ++ suffix

/-- The initialize action `{ type: ActionTypes.INIT }` dispatched at the end
of `createStore` (createStore.js:307). -/
def initAction (suffix : String) : JSValue :=
  .obj [("type", .str (initActionType suffix))]

/-- `createStore(reducer, preloadedState)` without an enhancer
(createStore.js:52-316): builds the fresh closure state and immediately
dispatches the initialize action. -/
def createStoreF (env : LEnv) (fuel : Nat) (r : Reducer) (preloaded : JSValue)
    (suffix : String) : Engine × List Ev × Except Err JSValue :=
  dispatchF env fuel (startEngine r preloaded) (initAction suffix)

/-- Dispatches a sequence of actions in order, stopping at the first error.
Each dispatch is given fuel 2, which is exact for a pure reducer and an
engine with no registered listeners. -/
def dispatchSeq (env : LEnv) (e : Engine) : List JSValue → Engine × Except Err Unit
  | [] => (e, .ok ())
  | a :: rest =>
    match dispatchF env 2 e a with
    | (e1, _, .ok _) => dispatchSeq env e1 rest
    | (e1, _, .error err) => (e1, .error err)

/-- An empty listener environment (no listener has a scripted body). -/
def noEnv : LEnv := fun _ => []

/-- The spec's example counter reducer, §8: increments on `'inc'`, starts at
`0`, raises on `'boom'` (used to exercise error recovery), and returns the
current state for unrecognized actions. -/
def counter (s a : JSValue) : Option JSValue :=
  let n : Int := match s with | .num m => m | _ => 0
  match typeStr a with
  | some "inc" => some (.num (n + 1))
  | some "boom" => none
  | _ => some (.num n)

/-- `{ type: t }`. -/
def mkAct (t : String) : JSValue := .obj [("type", .str t)]

/-- Scenario helper: the engine after a successful `subscribe` (unchanged when
`subscribe` fails, which does not happen in the scenarios below). -/
def afterSubscribe (e : Engine) (lid : Nat) : Engine :=
  match subscribeOp e lid with
  | .ok (e1, _) => e1
  | .error _ => e

section GuardLemmas

/-- `ensureCanMutateNextListeners` never touches the reentrancy flag. -/
theorem ensure_isDispatching (e : Engine) :
    (ensureCanMutateNextListeners e).isDispatching = e.isDispatching := by
  unfold ensureCanMutateNextListeners
  split <;> rfl

/-- A successful `subscribe` never touches the reentrancy flag. -/
theorem subscribeOp_isDispatching {e : Engine} {lid : Nat} {e1 : Engine} {sid : Nat}
    (h : subscribeOp e lid = .ok (e1, sid)) : e1.isDispatching = e.isDispatching := by
  unfold subscribeOp at h
  split at h
  · exact absurd h (by simp)
  · simp only [Except.ok.injEq, Prod.mk.injEq] at h
    rw [← h.1]
    exact ensure_isDispatching e

/-- A successful `unsubscribe` never touches the reentrancy flag. -/
theorem unsubscribeOp_isDispatching {e : Engine} {sid : Nat} {e1 : Engine}
    (h : unsubscribeOp e sid = .ok e1) : e1.isDispatching = e.isDispatching := by
  unfold unsubscribeOp at h
  split at h
  · simp only [Except.ok.injEq] at h; rw [← h]
  · rename_i r hr
    split at h
    · simp only [Except.ok.injEq] at h; rw [← h]
    · split at h
      · exact absurd h (by simp)
      · simp only [Except.ok.injEq] at h
        rw [← h]
        exact ensure_isDispatching _

end GuardLemmas

section FlagPreservation

/-- Joint reentrancy-flag preservation: every interpreter entry point returns
an engine whose `isDispatching` equals the one it was given — in particular,
`dispatch` clears the flag in its `finally` block even when the reducer
raises, and listener bodies cannot leave it set. -/
theorem flag_preserved (env : LEnv) : ∀ fuel : Nat,
    (∀ e a, ((dispatchF env fuel e a).1).isDispatching = e.isDispatching) ∧
    (∀ e a, ((runReducerF env fuel e a).1).isDispatching = e.isDispatching) ∧
    (∀ e arrId i, ((notifyF env fuel e arrId i).1).isDispatching = e.isDispatching) ∧
    (∀ e ops, ((runOpsF env fuel e ops).1).isDispatching = e.isDispatching) := by
  intro fuel
  induction fuel with
  | zero => exact ⟨fun _ _ => rfl, fun _ _ => rfl, fun _ _ _ => rfl, fun _ _ => rfl⟩
  | succ n ih =>
    obtain ⟨ihd, ihr, ihn, iho⟩ := ih
    refine ⟨?_, ?_, ?_, ?_⟩
    · intro e a
      simp only [dispatchF]
      split
      · split
        · rfl
        · split
          · rfl
          · rename_i hflag
            simp only [Bool.not_eq_true] at hflag
            split
            · rename_i e2 log1 err heq
              simp [hflag]
            · rename_i e2 log1 s heq
              split
              · rename_i e5 log2 err heq2
                have h5 := ihn { e2 with state := s, isDispatching := false, curId := e2.nextId }
                  e2.nextId 0
                rw [heq2] at h5
                simpa [hflag] using h5
              · rename_i e5 log2 u heq2
                have h5 := ihn { e2 with state := s, isDispatching := false, curId := e2.nextId }
                  e2.nextId 0
                rw [heq2] at h5
                simpa [hflag] using h5
      · rfl
    · intro e a
      simp only [runReducerF]
      split
      · rfl
      · split
        · split
          · rename_i e1 log err heq
            exact (congrArg (fun p => p.1.isDispatching) heq).symm.trans (ihd _ _)
          · rename_i e1 log v heq
            exact (congrArg (fun p => p.1.isDispatching) heq).symm.trans (ihd _ _)
        · rfl
    · intro e arrId i
      simp only [notifyF]
      split
      · split
        · rename_i e1 log err heq
          exact (congrArg (fun p => p.1.isDispatching) heq).symm.trans (iho _ _)
        · rename_i e1 log u heq
          have h1 := (congrArg (fun p => p.1.isDispatching) heq).symm.trans (iho _ _)
          exact (ihn e1 arrId (i + 1)).trans h1
      · rfl
    · intro e ops
      simp only [runOpsF]
      match ops with
      | [] => rfl
      | op :: rest =>
        cases op with
        | lGetState =>
          simp only
          split
          · rfl
          · exact iho e rest
        | lSubscribe lid =>
          simp only
          split
          · rfl
          · rename_i e1 sid heq
            exact (iho e1 rest).trans (subscribeOp_isDispatching heq)
        | lUnsub sid =>
          simp only
          split
          · rfl
          · rename_i e1 heq
            exact (iho e1 rest).trans (unsubscribeOp_isDispatching heq)
        | lDispatch a =>
          simp only
          split
          · rename_i e1 log err heq
            exact (congrArg (fun p => p.1.isDispatching) heq).symm.trans (ihd _ _)
          · rename_i e1 log v heq
            have h1 := (congrArg (fun p => p.1.isDispatching) heq).symm.trans (ihd _ _)
            exact (iho e1 rest).trans h1

end FlagPreservation

section DispatchLemmas

/-- An action that is not a plain object is rejected before anything happens:
no state change, no flag change, no listener change, no reducer invocation
(empty event log). -/
theorem dispatch_rejects_nonPlain (env : LEnv) (fuel : Nat) (e : Engine) (a : JSValue)
    (h : isPlainObject a = false) :
    dispatchF env (fuel + 1) e a = (e, [], .error .notPlainObject) := by
  simp [dispatchF, h]

/-- An action whose `type` is `undefined` is rejected before anything happens. -/
theorem dispatch_rejects_undefType (env : LEnv) (fuel : Nat) (e : Engine) (a : JSValue)
    (hp : isPlainObject a = true) (ht : isUndefined (getField a "type") = true) :
    dispatchF env (fuel + 1) e a = (e, [], .error .undefinedType) := by
  simp [dispatchF, hp, ht]

/-- A valid action dispatched while the engine is already dispatching is
rejected with the reentrancy error, leaving the engine untouched. -/
theorem dispatch_rejects_nested (env : LEnv) (fuel : Nat) (e : Engine) (a : JSValue)
    (hv : validAction a = true) (hd : e.isDispatching = true) :
    dispatchF env (fuel + 1) e a = (e, [], .error .reentrantDispatch) := by
  have hp : isPlainObject a = true := by
    simpa using (Bool.and_eq_true _ _ |>.mp hv).1
  have ht : isUndefined (getField a "type") = false := by
    have := (Bool.and_eq_true _ _ |>.mp hv).2
    simpa using this
  simp [dispatchF, hp, ht, hd]

/-- One successful dispatch of a valid action against a total pure reducer on
an engine whose live listener list is empty: the reducer output becomes the
state, the snapshot is retaken (`currentListeners = nextListeners`), and the
action is returned. -/
theorem dispatch_fn_step (env : LEnv) (e : Engine) (f : JSValue → JSValue → JSValue)
    (a : JSValue)
    (hr : e.reducer = .fn (fun s a => some (f s a)))
    (hd : e.isDispatching = false)
    (hv : validAction a = true)
    (hl : e.heap.getD e.nextId [] = []) :
    dispatchF env 2 e a =
      ({ e with state := f e.state a, curId := e.nextId }, [.reduced a], .ok a) := by
  have hp : isPlainObject a = true := by
    simpa using (Bool.and_eq_true _ _ |>.mp hv).1
  have ht : isUndefined (getField a "type") = false := by
    have := (Bool.and_eq_true _ _ |>.mp hv).2
    simpa using this
  simp only [dispatchF, runReducerF, notifyF, hp, ht, hd, hr, hl,
    Bool.false_eq_true, if_false, if_true, List.length_nil, Nat.lt_irrefl]
  rfl

end DispatchLemmas

/-- Folding a sequence of valid actions through `dispatch` with a total pure
reducer and no registered listeners: the state after the run is the left-fold
of the reducer over the sequence, every dispatch succeeds, and the engine is
left idle. -/
theorem dispatchSeq_fold (env : LEnv) (f : JSValue → JSValue → JSValue) :
    ∀ (acts : List JSValue) (e : Engine),
      e.reducer = .fn (fun s a => some (f s a)) →
      e.isDispatching = false →
      e.heap.getD e.nextId [] = [] →
      (∀ a ∈ acts, validAction a = true) →
      (dispatchSeq env e acts).1.state = acts.foldl f e.state ∧
      (dispatchSeq env e acts).2 = .ok () ∧
      (dispatchSeq env e acts).1.isDispatching = false := by
  intro acts
  induction acts with
  | nil =>
    intro e hr hd hl _
    exact ⟨rfl, rfl, hd⟩
  | cons a rest ih =>
    intro e hr hd hl hv
    have hstep := dispatch_fn_step env e f a hr hd (hv a (by simp)) hl
    simp only [dispatchSeq, hstep]
    exact ih { e with state := f e.state a, curId := e.nextId } hr hd hl
      (fun b hb => hv b (by simp [hb]))

/-- Whenever `dispatch` succeeds, the value it returns is exactly the action
it was given (createStore.js:230 `return action`). -/
theorem dispatch_ok_returns_action (env : LEnv) (fuel : Nat) (e : Engine) (a v : JSValue)
    (h : (dispatchF env fuel e a).2.2 = .ok v) : v = a := by
  match fuel with
  | 0 => exact absurd h (by simp [dispatchF])
  | n + 1 =>
    simp only [dispatchF] at h
    split at h
    · split at h
      · exact absurd h (by simp)
      · split at h
        · exact absurd h (by simp)
        · split at h
          · exact absurd h (by simp)
          · split at h
            · exact absurd h (by simp)
            · simp only [Except.ok.injEq] at h
              exact h.symm
    · exact absurd h (by simp)

/-- The initialize action passes dispatch validation. -/
theorem validAction_initAction (suffix : String) :
    validAction (initAction suffix) = true := by
  simp [validAction, initAction, isPlainObject, getField, isUndefined, List.lookup]

/-- A total pure reducer, as a `Reducer`. -/
def pureReducer (f : JSValue → JSValue → JSValue) : Reducer :=
  .fn fun s a => some (f s a)

/-- **C1.** For every engine constructed from transition function `T` with no
initial state, `getState()` immediately after construction equals
`T(undefined, initializeAction)`; for every sequence of valid dispatched
actions, `getState()` afterwards equals the left-fold of `T` over the
sequence starting from the post-construction state; and every successful
`dispatch(action)` returns the same action it was given. -/
theorem c1_construct_fold_return (f : JSValue → JSValue → JSValue) (suffix : String) :
    (createStoreF noEnv 2 (pureReducer f) .undefined suffix).2.2 = .ok (initAction suffix) ∧
    getStateOp (createStoreF noEnv 2 (pureReducer f) .undefined suffix).1
      = .ok (f .undefined (initAction suffix)) ∧
    (∀ acts : List JSValue, (∀ a ∈ acts, validAction a = true) →
      getStateOp (dispatchSeq noEnv
          (createStoreF noEnv 2 (pureReducer f) .undefined suffix).1 acts).1
        = .ok (acts.foldl f (f .undefined (initAction suffix)))) ∧
    (∀ (env : LEnv) (fuel : Nat) (e : Engine) (a v : JSValue),
      (dispatchF env fuel e a).2.2 = .ok v → v = a) := by
  have hstep := dispatch_fn_step noEnv (startEngine (pureReducer f) .undefined)
    f (initAction suffix) rfl rfl (validAction_initAction suffix) rfl
  refine ⟨?_, ?_, ?_, dispatch_ok_returns_action⟩
  · unfold createStoreF
    rw [hstep]
  · unfold createStoreF
    rw [hstep]
    rfl
  · intro acts hv
    unfold createStoreF
    rw [hstep]
    have h := dispatchSeq_fold noEnv f acts
      { startEngine (pureReducer f) .undefined with
        state := f (startEngine (pureReducer f) .undefined).state (initAction suffix),
        curId := (startEngine (pureReducer f) .undefined).nextId }
      rfl rfl rfl hv
    simp only [getStateOp, h.2.2, Bool.false_eq_true, if_false]
    rw [h.1]
    rfl

/-- The spec's §8 counter transition as a total function: increments on
`'inc'`, `0` from an undefined state, unchanged otherwise. -/
def counterTotal (s a : JSValue) : JSValue :=
  let n : Int := match s with | .num m => m | _ => 0
  if typeStr a = some "inc" then .num (n + 1) else .num n

/-- Witness for C1: the spec's §8 scenario — the counter transition
dispatched `{type:'inc'}` three times yields state `3`; the dispatch used to
exercise the return-value clause returns its own action. -/
theorem c1_construct_fold_return_witness :
    (∀ a ∈ [mkAct "inc", mkAct "inc", mkAct "inc"], validAction a = true) ∧
    getStateOp (dispatchSeq noEnv
        (createStoreF noEnv 2 (pureReducer counterTotal) .undefined "").1
        [mkAct "inc", mkAct "inc", mkAct "inc"]).1 = .ok (.num 3) ∧
    mkAct "inc" = mkAct "inc" := by
  refine ⟨by decide, ?_, ?_⟩
  · exact ((c1_construct_fold_return counterTotal "").2.2.1
      [mkAct "inc", mkAct "inc", mkAct "inc"] (by decide)).trans (by rfl)
  · exact ((c1_construct_fold_return counterTotal "").2.2.2 noEnv 2
      (startEngine (pureReducer counterTotal) .undefined) (mkAct "inc") (mkAct "inc")
      (by rfl)).symm.trans rfl

section ListHelpers

/-- Appending a slot at the end of the heap leaves existing slots readable. -/
theorem getD_append_lt {α : Type} (l : List α) (x : α) (d : α) :
    ∀ i, i < l.length → (l ++ [x]).getD i d = l.getD i d := by
  induction l with
  | nil => intro i h; simp at h
  | cons a rest ih =>
    intro i h
    cases i with
    | zero => rfl
    | succ j => exact ih j (by simpa using h)

/-- Writing one heap slot leaves all other slots unchanged. -/
theorem getD_set_ne {α : Type} :
    ∀ (l : List α) (j : Nat) (x : α) (d : α) (i : Nat), i ≠ j →
      (l.set j x).getD i d = l.getD i d := by
  intro l
  induction l with
  | nil => intro j x d i _; simp [List.set]
  | cons a rest ih =>
    intro j x d i hne
    cases j with
    | zero =>
      cases i with
      | zero => exact absurd rfl hne
      | succ k => rfl
    | succ j' =>
      cases i with
      | zero => rfl
      | succ k => exact ih j' x d k (by omega)

end ListHelpers

section SnapshotInvariant

/-- A successful `subscribe` never alters the array `currentListeners` points
at: it breaks the aliasing first (`ensureCanMutateNextListeners`) and then
mutates only the fresh `nextListeners` copy. -/
theorem subscribeOp_preserves_current {e : Engine} {lid : Nat} {e1 : Engine} {sid : Nat}
    (hc : e.curId < e.heap.length)
    (h : subscribeOp e lid = .ok (e1, sid)) :
    e1.heap.getD e.curId [] = e.heap.getD e.curId [] ∧ e1.curId = e.curId := by
  unfold subscribeOp at h
  split at h
  · exact absurd h (by simp)
  · simp only [Except.ok.injEq, Prod.mk.injEq] at h
    rw [← h.1]
    unfold ensureCanMutateNextListeners
    split
    · constructor
      · simp only
        rw [getD_set_ne _ _ _ _ _ (by omega), getD_append_lt _ _ _ _ hc]
      · rfl
    · rename_i hne
      constructor
      · simp only
        rw [getD_set_ne _ _ _ _ _ (by omega)]
      · rfl

/-- A successful `unsubscribe` never alters the array `currentListeners`
points at, for the same copy-on-write reason. -/
theorem unsubscribeOp_preserves_current {e : Engine} {sid : Nat} {e1 : Engine}
    (hc : e.curId < e.heap.length)
    (h : unsubscribeOp e sid = .ok e1) :
    e1.heap.getD e.curId [] = e.heap.getD e.curId [] ∧ e1.curId = e.curId := by
  unfold unsubscribeOp at h
  split at h
  · simp only [Except.ok.injEq] at h; rw [← h]; exact ⟨rfl, rfl⟩
  · split at h
    · simp only [Except.ok.injEq] at h; rw [← h]; exact ⟨rfl, rfl⟩
    · split at h
      · exact absurd h (by simp)
      · simp only [Except.ok.injEq] at h
        rw [← h]
        unfold ensureCanMutateNextListeners
        split
        · constructor
          · simp only
            rw [getD_set_ne _ _ _ _ _ (by simpa using Nat.ne_of_lt hc),
              getD_append_lt _ _ _ _ hc]
          · rfl
        · rename_i hne
          constructor
          · simp only
            rw [getD_set_ne _ _ _ _ _ (fun hh => hne hh.symm)]
          · rfl

end SnapshotInvariant

/-- The listener environment of the snapshot scenario: listener 2's callback
unsubscribes listener 2 (its own subscription, id 1) and subscribes the new
listener 4; listeners 1, 3 and 4 have empty bodies. -/
def snapEnv : LEnv := fun lid => if lid = 2 then [.lUnsub 1, .lSubscribe 4] else []

/-- The snapshot scenario's starting engine: listeners 1, 2, 3 subscribed (in
this order, with subscription ids 0, 1, 2) on a counter store. -/
def snapE0 : Engine :=
  afterSubscribe (afterSubscribe (afterSubscribe
    (startEngine (pureReducer counterTotal) (.num 0)) 1) 2) 3

/-- The scenario's first dispatch. -/
def snapD1 : Engine × List Ev × Except Err JSValue := dispatchF snapEnv 20 snapE0 (mkAct "inc")

/-- The scenario's second dispatch. -/
def snapD2 : Engine × List Ev × Except Err JSValue := dispatchF snapEnv 20 snapD1.1 (mkAct "inc")

/-- **C2.** Listener snapshot law.  General part: a successful
`subscribe`/`unsubscribe` first copies the live `next` list away from the
`current` snapshot before mutating, so the array pointed at by
`currentListeners` — the one an in-progress dispatch iterates over — is never
altered.  Scenario part: with listeners 1, 2, 3 registered and listener 2's
callback unsubscribing itself and subscribing listener 4, the first dispatch
fires exactly 1, 2, 3 in registration order; the next dispatch fires 1, 3, 4
(listener 4 deferred to it, listener 2 no longer invoked). -/
theorem c2_listener_snapshot :
    (∀ (e : Engine) (lid : Nat) (e1 : Engine) (sid : Nat),
      e.curId < e.heap.length → subscribeOp e lid = .ok (e1, sid) →
      e1.heap.getD e.curId [] = e.heap.getD e.curId [] ∧ e1.curId = e.curId) ∧
    (∀ (e : Engine) (sid : Nat) (e1 : Engine),
      e.curId < e.heap.length → unsubscribeOp e sid = .ok e1 →
      e1.heap.getD e.curId [] = e.heap.getD e.curId [] ∧ e1.curId = e.curId) ∧
    snapD1.2.1 = [.reduced (mkAct "inc"), .fired 1, .fired 2, .fired 3] ∧
    snapD1.2.2 = .ok (mkAct "inc") ∧
    snapD2.2.1 = [.reduced (mkAct "inc"), .fired 1, .fired 3, .fired 4] ∧
    snapD2.2.2 = .ok (mkAct "inc") := by
  exact ⟨fun e lid e1 sid hc h => subscribeOp_preserves_current hc h,
    fun e sid e1 hc h => unsubscribeOp_preserves_current hc h,
    rfl, rfl, rfl, rfl⟩

/-- Witness for C2: the general copy-on-write clauses instantiated on the
scenario's engine. -/
theorem c2_listener_snapshot_witness :
    (snapE0.curId < snapE0.heap.length ∧
      subscribeOp snapE0 9 = .ok ((afterSubscribe snapE0 9), 3) ∧
      (afterSubscribe snapE0 9).heap.getD snapE0.curId []
        = snapE0.heap.getD snapE0.curId []) ∧
    (snapE0.curId < snapE0.heap.length ∧
      ∃ e1, unsubscribeOp snapE0 0 = .ok e1 ∧
        e1.heap.getD snapE0.curId [] = snapE0.heap.getD snapE0.curId []) := by
  constructor
  · refine ⟨by decide, by rfl, ?_⟩
    exact (c2_listener_snapshot.1 snapE0 9 (afterSubscribe snapE0 9) 3 (by decide) (by rfl)).1
  · refine ⟨by decide, (unsubscribeOp snapE0 0).toOption.getD snapE0, ?_, ?_⟩
    · rfl
    · exact (c2_listener_snapshot.2.1 snapE0 0 _ (by decide) (by rfl)).1

section ReentrancyScenario

/-- C4's engine: a counter store whose reducer re-enters `dispatch` for
actions of type `'nest'` and raises for actions of type `'boom'`. -/
def nestE0 : Engine :=
  (createStoreF noEnv 2 (.nestedOn "nest" (mkAct "inc") counter) .undefined "").1

/-- Dispatch whose transition re-enters `dispatch`. -/
def nestD1 : Engine × List Ev × Except Err JSValue := dispatchF noEnv 10 nestE0 (mkAct "nest")

/-- A plain dispatch after the failed re-entrant one. -/
def nestD2 : Engine × List Ev × Except Err JSValue := dispatchF noEnv 10 nestD1.1 (mkAct "inc")

/-- Dispatch whose transition raises. -/
def nestD3 : Engine × List Ev × Except Err JSValue := dispatchF noEnv 10 nestD2.1 (mkAct "boom")

/-- A plain dispatch after the raising one. -/
def nestD4 : Engine × List Ev × Except Err JSValue := dispatchF noEnv 10 nestD3.1 (mkAct "inc")

end ReentrancyScenario

/-- **C4.** Dispatch called from within an executing transition raises the
reentrancy error (general clause), the reentrancy flag is restored to idle by
every dispatch attempt even when the transition fails (general clause), and —
scenario — after a dispatch whose transition re-entered `dispatch`, and after
one whose transition raised, the same engine accepts a subsequent non-nested
dispatch. -/
theorem c4_reentrant_dispatch_recovery :
    (∀ (env : LEnv) (fuel : Nat) (e : Engine) (a : JSValue),
      validAction a = true → e.isDispatching = true →
      dispatchF env (fuel + 1) e a = (e, [], .error .reentrantDispatch)) ∧
    (∀ (env : LEnv) (fuel : Nat) (e : Engine) (a : JSValue),
      ((dispatchF env fuel e a).1).isDispatching = e.isDispatching) ∧
    nestD1.2.2 = .error .reentrantDispatch ∧
    nestD1.1.isDispatching = false ∧
    nestD1.1.state = .num 0 ∧
    nestD2.2.2 = .ok (mkAct "inc") ∧
    nestD2.1.state = .num 1 ∧
    nestD3.2.2 = .error .reducerRaised ∧
    nestD3.1.isDispatching = false ∧
    nestD3.1.state = .num 1 ∧
    nestD4.2.2 = .ok (mkAct "inc") ∧
    nestD4.1.state = .num 2 := by
  exact ⟨fun env fuel e a hv hd => dispatch_rejects_nested env fuel e a hv hd,
    fun env fuel e a => (flag_preserved env fuel).1 e a,
    rfl, rfl, rfl, rfl, rfl, rfl, rfl, rfl, rfl, rfl⟩

/-- Witness for C4: the general clauses instantiated on a concrete
mid-transition engine. -/
theorem c4_reentrant_dispatch_recovery_witness :
    (validAction (mkAct "inc") = true ∧
      { nestE0 with isDispatching := true }.isDispatching = true ∧
      dispatchF noEnv 10 { nestE0 with isDispatching := true } (mkAct "inc")
        = ({ nestE0 with isDispatching := true }, [], .error .reentrantDispatch)) ∧
    ((dispatchF noEnv 10 nestE0 (mkAct "boom")).1).isDispatching = nestE0.isDispatching := by
  refine ⟨⟨by decide, rfl, ?_⟩, ?_⟩
  · exact c4_reentrant_dispatch_recovery.1 noEnv 9 { nestE0 with isDispatching := true }
      (mkAct "inc") (by decide) rfl
  · exact c4_reentrant_dispatch_recovery.2.1 noEnv 10 nestE0 (mkAct "boom")

section DispatchingGuards

/-- `getState` fails while the reducer is executing (createStore.js:76-82). -/
theorem getStateOp_dispatching {e : Engine} (hd : e.isDispatching = true) :
    getStateOp e = .error .getStateWhileDispatching := by
  simp [getStateOp, hd]

/-- `subscribe` fails while the reducer is executing (createStore.js:116-123). -/
theorem subscribeOp_dispatching {e : Engine} (lid : Nat) (hd : e.isDispatching = true) :
    subscribeOp e lid = .error .subscribeWhileDispatching := by
  simp [subscribeOp, hd]

/-- `unsubscribe` of a still-active subscription fails while the reducer is
executing (createStore.js:137-142). -/
theorem unsubscribeOp_dispatching {e : Engine} {sid : Nat} {r : SubRec}
    (hs : e.subs.get? sid = some r) (ha : r.isSubscribed = true)
    (hd : e.isDispatching = true) :
    unsubscribeOp e sid = .error .unsubscribeWhileDispatching := by
  unfold unsubscribeOp
  rw [hs]
  simp [ha, hd]

end DispatchingGuards

section NotificationPhase

/-- C5's listener environment: listener 1 reads the state via `getState`. -/
def c5Env : LEnv := fun lid => if lid = 1 then [.lGetState] else []

/-- C5's engine: a counter store with listener 1 subscribed. -/
def c5E0 : Engine :=
  afterSubscribe (createStoreF noEnv 2 (pureReducer counterTotal) .undefined "").1 1

/-- C5's dispatch: the listener runs during the notification phase of this
very dispatch call. -/
def c5D : Engine × List Ev × Except Err JSValue := dispatchF c5Env 10 c5E0 (mkAct "inc")

end NotificationPhase

/-- Counterexample to C5 as stated.  The claim asserts that for the entire
duration of a dispatch call, including listener notification, every
invocation of `getState` (among others) fails with a reentrancy error.  Here
a listener invokes `getState` during the notification phase of an in-progress
dispatch and it *succeeds*, returning the post-transition state: the source
clears `isDispatching` in the `finally` block (createStore.js:202-205),
before the listener loop runs. -/
theorem c5_counterexample :
    c5D.2.1 = [.reduced (mkAct "inc"), .fired 1, .gotState (.num 1)] ∧
    c5D.2.2 = .ok (mkAct "inc") :=
  ⟨rfl, rfl⟩

/-- **C5 (amended).** The engine enters `Dispatching` at dispatch entry
(after action validation) and returns to `Idle` when the transition function
completes or raises — *before* listener notification, so the whole-call
window of the original claim shrinks to the transition-execution window.
While `Dispatching`: `getState`, `subscribe`, `unsubscribe` (of an active
subscription) and `dispatch` (of a valid action) all fail with reentrancy
errors; the flag is restored at dispatch exit on success and failure alike;
and during the notification phase a listener's `getState` already succeeds
with the post-transition state. -/
theorem c5_reentrancy_window :
    (∀ e : Engine, e.isDispatching = true →
      getStateOp e = .error .getStateWhileDispatching) ∧
    (∀ (e : Engine) (lid : Nat), e.isDispatching = true →
      subscribeOp e lid = .error .subscribeWhileDispatching) ∧
    (∀ (e : Engine) (sid : Nat) (r : SubRec),
      e.subs.get? sid = some r → r.isSubscribed = true → e.isDispatching = true →
      unsubscribeOp e sid = .error .unsubscribeWhileDispatching) ∧
    (∀ (env : LEnv) (fuel : Nat) (e : Engine) (a : JSValue),
      validAction a = true → e.isDispatching = true →
      dispatchF env (fuel + 1) e a = (e, [], .error .reentrantDispatch)) ∧
    (∀ (env : LEnv) (fuel : Nat) (e : Engine) (a : JSValue),
      ((dispatchF env fuel e a).1).isDispatching = e.isDispatching) ∧
    c5D.2.1 = [.reduced (mkAct "inc"), .fired 1, .gotState (.num 1)] := by
  exact ⟨fun e hd => getStateOp_dispatching hd,
    fun e lid hd => subscribeOp_dispatching lid hd,
    fun e sid r hs ha hd => unsubscribeOp_dispatching hs ha hd,
    fun env fuel e a hv hd => dispatch_rejects_nested env fuel e a hv hd,
    fun env fuel e a => (flag_preserved env fuel).1 e a,
    rfl⟩

/-- Witness for C5 (amended): each guarded clause instantiated on a concrete
mid-transition engine. -/
theorem c5_reentrancy_window_witness :
    getStateOp { c5E0 with isDispatching := true } = .error .getStateWhileDispatching ∧
    subscribeOp { c5E0 with isDispatching := true } 7 = .error .subscribeWhileDispatching ∧
    unsubscribeOp { c5E0 with isDispatching := true } 0
      = .error .unsubscribeWhileDispatching ∧
    dispatchF noEnv 5 { c5E0 with isDispatching := true } (mkAct "inc")
      = ({ c5E0 with isDispatching := true }, [], .error .reentrantDispatch) := by
  refine ⟨c5_reentrancy_window.1 _ rfl,
    c5_reentrancy_window.2.1 _ 7 rfl,
    c5_reentrancy_window.2.2.1 _ 0 ⟨1, true⟩ (by rfl) rfl rfl,
    c5_reentrancy_window.2.2.2.1 noEnv 4 _ (mkAct "inc") (by decide) rfl⟩

/-- **C7.** Dispatching a value that is not a plain record, or a record whose
`type` is unset, raises the corresponding validation error and returns the
engine exactly as it was — same state, listener registry and reentrancy flag
— with an empty event log: the transition function was never invoked. -/
theorem c7_validation (env : LEnv) (fuel : Nat) (e : Engine) (a : JSValue) :
    (isPlainObject a = false →
      dispatchF env (fuel + 1) e a = (e, [], .error .notPlainObject)) ∧
    (isPlainObject a = true → isUndefined (getField a "type") = true →
      dispatchF env (fuel + 1) e a = (e, [], .error .undefinedType)) :=
  ⟨dispatch_rejects_nonPlain env fuel e a, dispatch_rejects_undefType env fuel e a⟩

/-- C7's engine: a plain counter store with one registered listener and a
nonzero state, so "unchanged" is visible. -/
def c7E : Engine :=
  (dispatchF noEnv 10
    (afterSubscribe (createStoreF noEnv 2 (pureReducer counterTotal) .undefined "").1 3)
    (mkAct "inc")).1

/-- Witness for C7: the spec's own examples — `dispatch("not-a-record")` and
`dispatch({})` — plus null, an array, a function and a class instance, all
rejected with the engine returned untouched. -/
theorem c7_validation_witness :
    dispatchF noEnv 10 c7E (.str "not-a-record") = (c7E, [], .error .notPlainObject) ∧
    dispatchF noEnv 10 c7E (.obj []) = (c7E, [], .error .undefinedType) ∧
    dispatchF noEnv 10 c7E .null = (c7E, [], .error .notPlainObject) ∧
    dispatchF noEnv 10 c7E (.arr [mkAct "inc"]) = (c7E, [], .error .notPlainObject) ∧
    dispatchF noEnv 10 c7E (.jsfn 0) = (c7E, [], .error .notPlainObject) ∧
    dispatchF noEnv 10 c7E (.inst "Action" [("type", .str "inc")])
      = (c7E, [], .error .notPlainObject) := by
  refine ⟨(c7_validation noEnv 9 c7E (.str "not-a-record")).1 rfl,
    (c7_validation noEnv 9 c7E (.obj [])).2 rfl rfl,
    (c7_validation noEnv 9 c7E .null).1 rfl,
    (c7_validation noEnv 9 c7E (.arr [mkAct "inc"])).1 rfl,
    (c7_validation noEnv 9 c7E (.jsfn 0)).1 rfl,
    (c7_validation noEnv 9 c7E (.inst "Action" [("type", .str "inc")])).1 rfl⟩

section UnsubscribeIdempotence

/-- `ensureCanMutateNextListeners` never touches the subscription records. -/
theorem ensure_subs (e : Engine) :
    (ensureCanMutateNextListeners e).subs = e.subs := by
  unfold ensureCanMutateNextListeners
  split <;> rfl

/-- Overwriting the slot we just read yields the written record. -/
theorem get?_set_self {α : Type} :
    ∀ (l : List α) (i : Nat) (x r : α), l.get? i = some r → (l.set i x).get? i = some x := by
  intro l
  induction l with
  | nil => intro i x r h; simp at h
  | cons a rest ih =>
    intro i x r h
    cases i with
    | zero => rfl
    | succ j => exact ih j x r h

/-- Scenario helper: the engine after a successful `unsubscribe` (unchanged
when `unsubscribe` fails, which does not happen in the scenarios below). -/
def afterUnsub (e : Engine) (sid : Nat) : Engine :=
  match unsubscribeOp e sid with
  | .ok e1 => e1
  | .error _ => e

/-- C9's engine: listener 5 subscribed (subscription id 0) on a counter store. -/
def c9E0 : Engine :=
  afterSubscribe (createStoreF noEnv 2 (pureReducer counterTotal) .undefined "").1 5

/-- C9's engine after the first `unsubscribe` call. -/
def c9E1 : Engine := afterUnsub c9E0 0

/-- **C9.** The unsubscribe closure is idempotent and guarded.  General
clauses: a first call on an active subscription (while idle) succeeds, marks
the subscription inactive, and every subsequent call on the result is a no-op
returning the engine unchanged; a call on an already-inactive subscription is
a no-op; a call on an active subscription while a transition is in progress
fails with the reentrancy error.  Scenario: unsubscribing listener 5 removes
its registration from the live list, and a second call changes nothing. -/
theorem c9_unsubscribe_idempotent :
    (∀ (e : Engine) (sid : Nat) (r : SubRec) (e1 : Engine),
      e.subs.get? sid = some r → r.isSubscribed = true → e.isDispatching = false →
      unsubscribeOp e sid = .ok e1 →
      e1.subs.get? sid = some ⟨r.lid, false⟩ ∧ unsubscribeOp e1 sid = .ok e1) ∧
    (∀ (e : Engine) (sid : Nat) (r : SubRec),
      e.subs.get? sid = some r → r.isSubscribed = false →
      unsubscribeOp e sid = .ok e) ∧
    (∀ (e : Engine) (sid : Nat) (r : SubRec),
      e.subs.get? sid = some r → r.isSubscribed = true → e.isDispatching = true →
      unsubscribeOp e sid = .error .unsubscribeWhileDispatching) ∧
    c9E0.heap.getD c9E0.nextId [] = [5] ∧
    c9E1.heap.getD c9E1.nextId [] = [] ∧
    unsubscribeOp c9E0 0 = .ok c9E1 ∧
    unsubscribeOp c9E1 0 = .ok c9E1 := by
  refine ⟨?_, ?_, fun e sid r hs ha hd => unsubscribeOp_dispatching hs ha hd,
    rfl, rfl, rfl, rfl⟩
  · intro e sid r e1 hs ha hd h
    have hsubs : e1.subs = e.subs.set sid ⟨r.lid, false⟩ := by
      unfold unsubscribeOp at h
      rw [hs] at h
      simp only [ha, Bool.not_true, Bool.false_eq_true, if_false, hd] at h
      simp only [Except.ok.injEq] at h
      rw [← h, ensure_subs]
    have hget : e1.subs.get? sid = some ⟨r.lid, false⟩ := by
      rw [hsubs]
      exact get?_set_self e.subs sid ⟨r.lid, false⟩ r hs
    refine ⟨hget, ?_⟩
    unfold unsubscribeOp
    rw [hget]
    simp
  · intro e sid r hs ha
    unfold unsubscribeOp
    rw [hs]
    simp [ha]

/-- Witness for C9: the general clauses instantiated on the scenario engine
(first call on the live subscription, second call on the result, the inactive
no-op, and the mid-transition failure). -/
theorem c9_unsubscribe_idempotent_witness :
    (c9E0.subs.get? 0 = some ⟨5, true⟩ ∧ c9E0.isDispatching = false ∧
      c9E1.subs.get? 0 = some ⟨5, false⟩ ∧ unsubscribeOp c9E1 0 = .ok c9E1) ∧
    unsubscribeOp c9E1 0 = .ok c9E1 ∧
    unsubscribeOp { c9E0 with isDispatching := true } 0
      = .error .unsubscribeWhileDispatching := by
  refine ⟨⟨rfl, rfl, ?_⟩, ?_, ?_⟩
  · exact c9_unsubscribe_idempotent.1 c9E0 0 ⟨5, true⟩ c9E1 rfl rfl rfl rfl
  · exact c9_unsubscribe_idempotent.2.1 c9E1 0 ⟨5, false⟩ rfl rfl
  · exact c9_unsubscribe_idempotent.2.2.1 { c9E0 with isDispatching := true } 0
      ⟨5, true⟩ rfl rfl rfl

end UnsubscribeIdempotence

section DuplicateRegistration

/-- C10's engine: the same listener function 7 subscribed twice around
listener 8 (subscription ids 0, 1, 2; live list `[7, 8, 7]`). -/
def c10E0 : Engine :=
  afterSubscribe (afterSubscribe (afterSubscribe
    (createStoreF noEnv 2 (pureReducer counterTotal) .undefined "").1 7) 8) 7

/-- Dispatch with duplicate registration present. -/
def c10D1 : Engine × List Ev × Except Err JSValue := dispatchF noEnv 20 c10E0 (mkAct "inc")

/-- The engine after unsubscribing via the *second* registration's closure
(subscription id 2). -/
def c10E1 : Engine := afterUnsub c10D1.1 2

/-- Dispatch after one of the duplicate registrations was removed. -/
def c10D2 : Engine × List Ev × Except Err JSValue := dispatchF noEnv 20 c10E1 (mkAct "inc")

/-- **C10.** With the same listener reference subscribed twice (`[7, 8, 7]`),
a dispatch invokes it twice (once per registration, in order).  Calling the
unsubscribe closure of the *second* registration removes the *first*
occurrence from the live list (`indexOf` finds the first match), leaving
`[8, 7]` — visible in the next dispatch's ordering — so the other
registration stays active. -/
theorem c10_duplicate_listener :
    c10E0.heap.getD c10E0.nextId [] = [7, 8, 7] ∧
    c10D1.2.1 = [.reduced (mkAct "inc"), .fired 7, .fired 8, .fired 7] ∧
    c10D1.2.2 = .ok (mkAct "inc") ∧
    unsubscribeOp c10D1.1 2 = .ok c10E1 ∧
    c10E1.heap.getD c10E1.nextId [] = [8, 7] ∧
    c10D2.2.1 = [.reduced (mkAct "inc"), .fired 8, .fired 7] ∧
    c10D2.2.2 = .ok (mkAct "inc") :=
  ⟨rfl, rfl, rfl, rfl, rfl, rfl, rfl⟩

end DuplicateRegistration

section MiddlewareModel

/-- Modelled from the spec: the Composer (`compose.js` is imported by
`applyMiddleware.js` but is not among the provided sources).  §4.1: given
unary functions `f1..fn`, produce `g` with `g(x) = f1(f2(...fn(x)))`; the
identity for zero functions, the function itself for one. -/
def compose {α : Type} : List (α → α) → α → α
  | [] => fun x => x
  | f :: rest => fun x => f (compose rest x)

/-- The type of a dispatch function over the engine: the shape shared by the
base `store.dispatch`, every middleware stage's `next`, and the composed
dispatch. -/
abbrev H := Engine → JSValue → Engine × List Ev × Except Err JSValue

/-- A scripted middleware `api => next => action => …`.  Each handler logs
its entry (`mwCall tag action`).  `passThru` always calls `next`;
`shortCircuit` returns `ret` without calling `next` for actions of
discriminant `t`; `apiRedispatch` calls the capability object's `dispatch`
indirection on `inner` for actions of discriminant `t`; `buildTimeDispatch`
invokes the capability dispatch already at construction time, i.e. while the
chain is still being assembled (and behaves as `passThru` at run time). -/
inductive MwProg where
  | passThru (tag : Nat)
  | shortCircuit (tag : Nat) (t : String) (ret : JSValue)
  | apiRedispatch (tag : Nat) (t : String) (inner : JSValue)
  | buildTimeDispatch (tag : Nat)

/-- `middleware(middlewareAPI)` (applyMiddleware.js:71): the per-chain handler
factory of one middleware, given the capability `dispatch` indirection `api`
(the `getState` capability is not consumed by these scripted middleware). -/
def mwFactory (m : MwProg) (api : H) : H → H := fun next e a =>
  match m with
  | .passThru tag =>
    let r := next e a
    (r.1, .mwCall tag a :: r.2.1, r.2.2)
  | .shortCircuit tag t ret =>
    if typeStr a = some t then (e, [.mwCall tag a], .ok ret)
    else
      let r := next e a
      (r.1, .mwCall tag a :: r.2.1, r.2.2)
  | .apiRedispatch tag t inner =>
    if typeStr a = some t then
      let r := api e inner
      (r.1, .mwCall tag a :: r.2.1, r.2.2)
    else
      let r := next e a
      (r.1, .mwCall tag a :: r.2.1, r.2.2)
  | .buildTimeDispatch _ => next e a

/-- The composed dispatch `dispatch = compose(...chain)(store.dispatch)`
(applyMiddleware.js:74).  The capability object's `dispatch` field is the
stable indirection `(...args) => dispatch(...args)` (applyMiddleware.js:68),
which reads the `dispatch` variable at call time; once assembly has completed
that variable holds this composed function itself, embedded here as the same
composed dispatch at one fuel step less. -/
def enhDispatch (mws : List MwProg) (base : H) : Nat → H
  | 0 => fun e _ => (e, [], .error .outOfFuel)
  | fuel + 1 => compose (mws.map fun m => mwFactory m (enhDispatch mws base fuel)) base

/-- The record returned by `createStore` (createStore.js:309-315), with the
fields `applyMiddleware` does not inspect held abstract: the spread
`{...store, dispatch}` copies them through unchanged. -/
structure StoreShape (γ σ ρ ω : Type) where
  dispatch : Nat → H
  getState : γ
  subscribe : σ
  replaceReducer : ρ
  observable : ω

/-- The chain-building map `middlewares.map(middleware =>
middleware(middlewareAPI))` (applyMiddleware.js:71), during which the local
`dispatch` variable still holds the throwing placeholder
(applyMiddleware.js:43-48): a middleware that invokes the capability dispatch
at construction time hits that placeholder and the error propagates. -/
def buildChainCheck : List MwProg → Except Err Unit
  | [] => .ok ()
  | .buildTimeDispatch _ :: _ => .error .dispatchWhileConstructing
  | _ :: rest => buildChainCheck rest

/-- Does the chain contain a middleware that dispatches at construction time? -/
def hasBuildTimeDispatch : List MwProg → Bool
  | [] => false
  | .buildTimeDispatch _ :: _ => true
  | _ :: rest => hasBuildTimeDispatch rest

/-- `applyMiddleware(...middlewares)(createStore)(...args)` applied to an
already-built base store (applyMiddleware.js:37-81): evaluate each middleware
against the capability object, compose the resulting chain onto the base
dispatch, and return the base store with only its `dispatch` field replaced. -/
def applyMiddlewareShape {γ σ ρ ω : Type} (mws : List MwProg) (s : StoreShape γ σ ρ ω) :
    Except Err (StoreShape γ σ ρ ω) :=
  match buildChainCheck mws with
  | .error err => .error err
  | .ok _ => .ok { s with dispatch := fun fuel => enhDispatch mws (s.dispatch fuel) fuel }

/-- Scenario helper: the dispatch of an enhanced store, or a stuck dispatch
when enhancement failed. -/
def shapeDispatch {γ σ ρ ω : Type} (r : Except Err (StoreShape γ σ ρ ω)) (fuel : Nat) : H :=
  match r with
  | .ok s => s.dispatch fuel
  | .error _ => fun e _ => (e, [], .error .outOfFuel)

end MiddlewareModel

section MiddlewareOrdering

/-- C3's chain: `A` short-circuits actions of type `'skip'` with the value
`'stopped'`; `B` passes every action through. -/
def c3Mws : List MwProg := [.shortCircuit 1 "skip" (.str "stopped"), .passThru 2]

/-- C3's base store record over the engine dispatch, with opaque non-dispatch
fields. -/
def c3Shape : StoreShape Nat Nat Nat Nat :=
  { dispatch := fun fuel e a => dispatchF noEnv fuel e a,
    getState := 10, subscribe := 11, replaceReducer := 12, observable := 13 }

/-- The enhanced store record C3's scenario produces. -/
def c3Shape1 : StoreShape Nat Nat Nat Nat :=
  { c3Shape with dispatch := fun fuel => enhDispatch c3Mws (c3Shape.dispatch fuel) fuel }

/-- C3's base engine: a fresh counter store. -/
def c3E0 : Engine := (createStoreF noEnv 2 (pureReducer counterTotal) .undefined "").1

/-- The enhanced dispatch on a pass-through action. -/
def c3Go : Engine × List Ev × Except Err JSValue :=
  shapeDispatch (applyMiddlewareShape c3Mws c3Shape) 10 c3E0 (mkAct "inc")

/-- The enhanced dispatch on a short-circuited action. -/
def c3Skip : Engine × List Ev × Except Err JSValue :=
  shapeDispatch (applyMiddlewareShape c3Mws c3Shape) 10 c3E0 (mkAct "skip")

/-- **C3.** Wiring clause: for every two middleware `[A, B]`, the composed
dispatch is `A`'s handler whose `next` is `B`'s handler whose `next` is the
base dispatch.  Pass-through clause: enhancement replaces only the `dispatch`
field; `getState`, `subscribe`, `replaceReducer` and the observable entry are
copied through unchanged.  Scenario: a pass-through action traverses `A`,
then `B`, then the base dispatch (which runs the reducer) and returns the
action; a short-circuited action runs only `A`'s handler, whose return value
becomes the dispatch result, with the base engine untouched. -/
theorem c3_middleware_chain :
    (∀ (A B : MwProg) (base : H) (fuel : Nat) (e : Engine) (a : JSValue),
      enhDispatch [A, B] base (fuel + 1) e a
        = mwFactory A (enhDispatch [A, B] base fuel)
            (mwFactory B (enhDispatch [A, B] base fuel) base) e a) ∧
    (∀ (γ σ ρ ω : Type) (mws : List MwProg) (s s1 : StoreShape γ σ ρ ω),
      applyMiddlewareShape mws s = .ok s1 →
      s1.getState = s.getState ∧ s1.subscribe = s.subscribe ∧
      s1.replaceReducer = s.replaceReducer ∧ s1.observable = s.observable ∧
      s1.dispatch = fun fuel => enhDispatch mws (s.dispatch fuel) fuel) ∧
    c3Go.2.1 = [.mwCall 1 (mkAct "inc"), .mwCall 2 (mkAct "inc"),
      .reduced (mkAct "inc")] ∧
    c3Go.2.2 = .ok (mkAct "inc") ∧
    c3Go.1.state = .num 1 ∧
    c3Skip = (c3E0, [.mwCall 1 (mkAct "skip")], .ok (.str "stopped")) := by
  refine ⟨fun A B base fuel e a => rfl, ?_, rfl, rfl, rfl, rfl⟩
  intro γ σ ρ ω mws s s1 h
  unfold applyMiddlewareShape at h
  split at h
  · exact absurd h (by simp)
  · simp only [Except.ok.injEq] at h
    rw [← h]
    exact ⟨rfl, rfl, rfl, rfl, rfl⟩

/-- Witness for C3: the pass-through clause instantiated on the scenario's
store record. -/
theorem c3_middleware_chain_witness :
    applyMiddlewareShape c3Mws c3Shape = .ok c3Shape1 ∧
    c3Shape1.getState = c3Shape.getState ∧
    c3Shape1.subscribe = c3Shape.subscribe ∧
    c3Shape1.replaceReducer = c3Shape.replaceReducer ∧
    c3Shape1.observable = c3Shape.observable := by
  have h := c3_middleware_chain.2.1 Nat Nat Nat Nat c3Mws c3Shape c3Shape1 rfl
  exact ⟨rfl, h.1, h.2.1, h.2.2.1, h.2.2.2.1⟩

end MiddlewareOrdering

section CapabilityDispatch

/-- Chains containing a construction-time dispatcher fail the build map with
the placeholder's error. -/
theorem buildChainCheck_error :
    ∀ mws : List MwProg, hasBuildTimeDispatch mws = true →
      buildChainCheck mws = .error .dispatchWhileConstructing := by
  intro mws
  induction mws with
  | nil => intro h; simp [hasBuildTimeDispatch] at h
  | cons m rest ih =>
    intro h
    cases m with
    | passThru tag => exact ih (by simpa [hasBuildTimeDispatch] using h)
    | shortCircuit tag t ret => exact ih (by simpa [hasBuildTimeDispatch] using h)
    | apiRedispatch tag t inner => exact ih (by simpa [hasBuildTimeDispatch] using h)
    | buildTimeDispatch tag => rfl

/-- C6's chain: `A` re-dispatches `{type:'inc'}` through the capability
object's dispatch when it sees `{type:'outer'}`; `B` passes through. -/
def c6Mws : List MwProg := [.apiRedispatch 1 "outer" (mkAct "inc"), .passThru 2]

/-- C6's base store record. -/
def c6Shape : StoreShape Nat Nat Nat Nat :=
  { dispatch := fun fuel e a => dispatchF noEnv fuel e a,
    getState := 20, subscribe := 21, replaceReducer := 22, observable := 23 }

/-- C6's base engine: a fresh counter store. -/
def c6E0 : Engine := (createStoreF noEnv 2 (pureReducer counterTotal) .undefined "").1

/-- The enhanced dispatch on the re-dispatching action. -/
def c6Run : Engine × List Ev × Except Err JSValue :=
  shapeDispatch (applyMiddlewareShape c6Mws c6Shape) 10 c6E0 (mkAct "outer")

/-- **C6.** Guard clause: any chain whose assembly invokes the capability
object's dispatch before the composed dispatch has been assigned makes the
enhancer throw the construction error.  Indirection clause: after assembly the
capability dispatch seen by every middleware is the final composed chain
itself over the base dispatch (not the base engine's raw dispatch, not a
build-time snapshot).  Scenario: middleware `A` re-dispatches through the
capability object and the inner action traverses the full chain — `A`'s and
`B`'s handlers and only then the base dispatch — before `A`'s outer call
returns its result. -/
theorem c6_capability_dispatch :
    (∀ (γ σ ρ ω : Type) (mws : List MwProg) (s : StoreShape γ σ ρ ω),
      hasBuildTimeDispatch mws = true →
      applyMiddlewareShape mws s = .error .dispatchWhileConstructing) ∧
    (∀ (mws : List MwProg) (base : H) (fuel : Nat),
      enhDispatch mws base (fuel + 1)
        = compose (mws.map fun m => mwFactory m (enhDispatch mws base fuel)) base) ∧
    c6Run.2.1 = [.mwCall 1 (mkAct "outer"), .mwCall 1 (mkAct "inc"),
      .mwCall 2 (mkAct "inc"), .reduced (mkAct "inc")] ∧
    c6Run.2.2 = .ok (mkAct "inc") ∧
    c6Run.1.state = .num 1 := by
  refine ⟨?_, fun mws base fuel => rfl, rfl, rfl, rfl⟩
  intro γ σ ρ ω mws s h
  unfold applyMiddlewareShape
  rw [buildChainCheck_error mws h]

/-- Witness for C6: the guard clause instantiated on a chain whose first
middleware dispatches during construction. -/
theorem c6_capability_dispatch_witness :
    hasBuildTimeDispatch [MwProg.buildTimeDispatch 0, .passThru 1] = true ∧
    applyMiddlewareShape [MwProg.buildTimeDispatch 0, .passThru 1] c6Shape
      = .error .dispatchWhileConstructing :=
  ⟨rfl, c6_capability_dispatch.1 Nat Nat Nat Nat
    [MwProg.buildTimeDispatch 0, .passThru 1] c6Shape rfl⟩

end CapabilityDispatch

section ConstructorArguments

/-- A positional JavaScript argument of `createStore`: `undefined` (absent),
a function carrying payload `φ`, or a non-function value. -/
inductive JArg (φ : Type) where
  | undefined
  | fn (f : φ)
  | val (v : JSValue)

/-- What the head of `createStore` decides to do with its arguments:
delegate construction to `enhancer(createStore)(reducer, preloadedState)`
(createStore.js:44), or fall through to base construction. -/
inductive CSOutcome (φ : Type) where
  | delegate (enhancer : φ) (reducer preloaded : JArg φ)
  | build (reducer : φ) (preloaded : JArg φ)

/-- The argument handling of `createStore` (createStore.js:31-50): a
function-valued second argument with an undefined third argument is shifted
into the enhancer position and the preloaded state cleared to `undefined`;
a defined non-function enhancer is a configuration error; with a (possibly
shifted) enhancer present, construction inverts into
`enhancer(createStore)(reducer, preloadedState)`; otherwise a non-function
reducer is a configuration error, and a function reducer proceeds to base
construction. -/
def createStoreHead {φ : Type} (reducer preloadedState enhancer : JArg φ) :
    Except Err (CSOutcome φ) :=
  let shifted : JArg φ × JArg φ :=
    match preloadedState, enhancer with
    | .fn f, .undefined => (.undefined, .fn f)
    | p, en => (p, en)
  match shifted with
  | (p, .undefined) =>
    match reducer with
    | .fn r => .ok (.build r p)
    | _ => .error .expectedReducerFunction
  | (p, .fn en) => .ok (.delegate en reducer p)
  | (_, .val _) => .error .expectedEnhancerFunction

/-- **C8.** Constructor argument handling: a function-valued second argument
with no third argument becomes the enhancer with the initial state cleared to
`undefined`; whenever an enhancer is present construction inverts into
`enhancer(construct)(transition, initialState)`; a supplied defined
non-function enhancer is a configuration error; with no enhancer, a
non-function transition is a configuration error and a function transition
proceeds to base construction with the given initial state. -/
theorem c8_constructor_args (φ : Type) :
    (∀ (r : JArg φ) (f : φ),
      createStoreHead r (.fn f) .undefined = .ok (.delegate f r .undefined)) ∧
    (∀ (r p : JArg φ) (en : φ),
      createStoreHead r p (.fn en) = .ok (.delegate en r p)) ∧
    (∀ (r p : JArg φ) (v : JSValue),
      createStoreHead r p (.val v) = .error .expectedEnhancerFunction) ∧
    (∀ (r p : JArg φ), (∀ g : φ, r ≠ .fn g) → (∀ g : φ, p ≠ .fn g) →
      createStoreHead r p .undefined = .error .expectedReducerFunction) ∧
    (∀ (f : φ) (p : JArg φ), (∀ g : φ, p ≠ .fn g) →
      createStoreHead (.fn f) p .undefined = .ok (.build f p)) := by
  refine ⟨fun r f => rfl, ?_, ?_, ?_, ?_⟩
  · intro r p en
    cases p <;> rfl
  · intro r p v
    cases p <;> rfl
  · intro r p hr hp
    cases p with
    | undefined => cases r with
      | undefined => rfl
      | fn g => exact absurd rfl (hr g)
      | val v => rfl
    | fn g => exact absurd rfl (hp g)
    | val v => cases r with
      | undefined => rfl
      | fn g => exact absurd rfl (hr g)
      | val w => rfl
  · intro f p hp
    cases p with
    | undefined => rfl
    | fn g => exact absurd rfl (hp g)
    | val v => rfl

/-- Witness for C8: the hypothesis-bearing clauses instantiated — a
non-function reducer with no enhancer fails, and a function reducer with a
plain-value initial state builds. -/
theorem c8_constructor_args_witness :
    createStoreHead (φ := Nat) (.val (.str "not-a-function")) (.val (.num 5)) .undefined
      = .error .expectedReducerFunction ∧
    createStoreHead (φ := Nat) (.fn 7) (.val (.num 5)) .undefined
      = .ok (.build 7 (.val (.num 5))) :=
  ⟨(c8_constructor_args Nat).2.2.2.1 (.val (.str "not-a-function")) (.val (.num 5))
      (fun _ h => JArg.noConfusion h) (fun _ h => JArg.noConfusion h),
    (c8_constructor_args Nat).2.2.2.2 7 (.val (.num 5)) (fun _ h => JArg.noConfusion h)⟩

end ConstructorArguments
